import Mathlib

/-
Verification of the startup wiring of the graph-builder service
(src/graph-builder/src/main.rs).

The development shallowly embeds the pieces of main.rs that the claims are
about: the metrics gate `ensure_registered_metrics`, the startup sequence of
`main` (as an event trace with early return on error), the `try_join3` of the
three listener servers, the three `HttpServer`/`App` builder descriptions, the
shared `graph::State` construction, and the tracing `wrap_fn` closure.
Registries are represented by the list of gathered metric family names;
`RwLock`/`Arc` wrappers are dropped in favour of plain values.
-/

/--
Modelled from the spec: config::METRICS_PREFIX, the configured metrics name
prefix (config.rs is not in this tree); the unit test in main.rs
(serve_metrics_basic) shows the value is "cincinnati_gb".  No claim depends
on the actual string.
-/
def METRICS_PFX : String := "cincinnati_gb"

/-
Rendering of the registered-names set used in the error message of
ensure_registered_metrics, mirroring the pretty debug format `{:#?}` of the
HashSet<String> of gathered names: one quoted name per line.
-/
def concatParts : List String → String
  | [] => ""
  | n :: rest => "\n    \"" ++ (n ++ ("\"," ++ concatParts rest))

def debugFormatNames (l : List String) : String :=
  "\x7b" ++ (concatParts l ++ "\n\x7d")

/-
The error string produced by the `ensure!` in ensure_registered_metrics:
"Required metric '{}' has not been registered: {:#?}" formatted with the
missing metric name and the gathered registered names.
-/
def missingMetricMsg (name : String) (registered : List String) : String :=
  "Required metric '" ++ (name ++ ("' has not been registered: " ++ debugFormatNames registered))

/-
Embedding of ensure_registered_metrics (main.rs lines 166-188).  The registry
argument is represented by the list of metric family names that
`registry.gather()` yields.  The `try_for_each` over the HashSet of required
names becomes structural recursion over a list standing for the iteration
order; the body checks `registered.contains(format!("{}_{}", prefix, name))`
and stops at the first absent name with the formatted error.
-/
def ensure_registered_metrics (registered_metric_names : List String)
    (metrics_pfx : String) (metrics_required : List String) : Except String Unit :=
  match metrics_required with
  | [] => .ok ()
  | r :: rest =>
    if (metrics_pfx ++ "_" ++ r) ∈ registered_metric_names then
      ensure_registered_metrics registered_metric_names metrics_pfx rest
    else
      .error (missingMetricMsg r registered_metric_names)

/-
First required name, in iteration order, whose prefixed form is not among the
registered names.
-/
def firstMissing (registered : List String) (metrics_pfx : String) : List String → Option String
  | [] => none
  | r :: rest =>
    if (metrics_pfx ++ "_" ++ r) ∈ registered then firstMissing registered metrics_pfx rest
    else some r

/-
A string occurs inside another (substring occurrence, stated by explicit
decomposition).
-/
def appearsIn (needle hay : String) : Prop :=
  ∃ pre post, hay = pre ++ (needle ++ post)

/-
Startup sequence of main (main.rs lines 33-164), embedded as an event trace.
Each fallible step (the `?` operator) emits its event and, when it fails, cuts
the trace short; infallible statements emit their event unconditionally.  The
gate step's outcome is computed by the embedded ensure_registered_metrics on
the names registered at that point.  Source order: assemble settings, logger
init, new_registry, init_tracer, validate_and_build_plugins,
ensure_registered_metrics, shared-state construction, refresher thread spawn,
graph::register_metrics, bind status listener, bind main listener, bind public
listener, try_join3 of the three run loops.
-/
inductive Event
  | assembleSettings
  | initLogger
  | newRegistry
  | initTracer
  | buildPlugins
  | gateCheck
  | constructState
  | spawnRefresher
  | registerMetrics
  | bindStatus
  | bindMain
  | bindPublic
  | joinServe
deriving DecidableEq

/-
Success of the gate call at line 50: ensure_registered_metrics over the names
registered in the registry at that point and settings.metrics_required.
-/
def gateOk (registered required : List String) : Bool :=
  match ensure_registered_metrics registered METRICS_PFX required with
  | .ok _ => true
  | .error _ => false

/-
Environment of one run of main: the outcome of each external fallible step,
plus the registry content and required names seen by the gate.
-/
structure MainEnv where
  assembleOk : Bool
  newRegistryOk : Bool
  initTracerOk : Bool
  buildPluginsOk : Bool
  registered : List String
  required : List String
  registerMetricsOk : Bool
  bindStatusOk : Bool
  bindMainOk : Bool
  bindPublicOk : Bool

/-
Trace of main over the outcomes of its nine fallible steps (the gate outcome
already collapsed to a Bool); mainTrace below instantiates the gate outcome
from the registry content and the required names.
-/
def mainTraceB (asm nreg itr bpl gate rmet bst bma bpu : Bool) : List Event :=
  .assembleSettings :: (if !asm then [] else
  .initLogger :: .newRegistry :: (if !nreg then [] else
  .initTracer :: (if !itr then [] else
  .buildPlugins :: (if !bpl then [] else
  .gateCheck :: (if !gate then [] else
  .constructState :: .spawnRefresher :: .registerMetrics :: (if !rmet then [] else
  .bindStatus :: (if !bst then [] else
  .bindMain :: (if !bma then [] else
  .bindPublic :: (if !bpu then [] else
  [.joinServe])))))))))

def mainTrace (env : MainEnv) : List Event :=
  mainTraceB env.assembleOk env.newRegistryOk env.initTracerOk env.buildPluginsOk
    (gateOk env.registered env.required) env.registerMetricsOk
    env.bindStatusOk env.bindMainOk env.bindPublicOk

/-
An environment in which every startup step succeeds (empty required set, so
the gate passes).
-/
def envAll : MainEnv :=
  ⟨true, true, true, true, [], [], true, true, true, true⟩

/-
Embedding of futures::future::try_join3 over the three listener run loops
(main.rs line 161).  A completed future is its completion time together with
its result; try_join3 resolves with the earliest error as soon as one of the
joined futures errors (polling order a, b, c breaking ties), and otherwise
resolves successfully only once all three futures have completed.
-/
structure FutOutcome where
  time : Nat
  result : Except String Unit

def FutOutcome.failed (o : FutOutcome) : Bool :=
  match o.result with
  | .error _ => true
  | .ok _ => false

def earlierOutcome (x y : FutOutcome) : FutOutcome :=
  if y.time < x.time then y else x

def try_join3 (a b c : FutOutcome) : FutOutcome :=
  match [a, b, c].filter FutOutcome.failed with
  | [] => ⟨max a.time (max b.time c.time), .ok ()⟩
  | e :: es => es.foldl earlierOutcome e

/-
Configuration fields of AppSettings that main.rs reads (path_prefix is named
pathPfx here).  There is no keep-alive field: none exists in the
configuration the source consumes.
-/
structure AppSettings where
  address : String
  port : Nat
  public_port : Nat
  status_address : String
  status_port : Nat
  pathPfx : String
  mandatory_client_parameters : List String
  metrics_required : List String

/-
Request handlers the three apps route to, and the two middleware wrappers
applied via .wrap / .wrap_fn.  Middleware.tracing stands for the tracing
closure embedded below as wrap_fn.
-/
inductive Handler
  | serve_liveness
  | serve_metrics
  | serve_readiness
  | graph_index
  | graph_data
deriving DecidableEq

inductive Middleware
  | compress
  | tracing
deriving DecidableEq

structure Route where
  path : String
  method : String
  handler : Handler
deriving DecidableEq

/-
Description of one App as built by an HttpServer::new closure: the middleware
wrappers in application order and the routed resources in registration order.
-/
structure AppSpec where
  middlewares : List Middleware
  routes : List Route
deriving DecidableEq

/-
The status-service app (main.rs lines 91-106): no middleware; /liveness,
/metrics and /readiness, all GET.
-/
def status_app : AppSpec :=
  ⟨[],
   [⟨"/liveness", "GET", .serve_liveness⟩,
    ⟨"/metrics", "GET", .serve_metrics⟩,
    ⟨"/readiness", "GET", .serve_readiness⟩]⟩

/-
The main-service app (main.rs lines 112-133): Compress and the tracing
wrap_fn; two GET resources formatted from the configured path prefix, both
routed to graph::index.
-/
def main_app (app_pfx : String) : AppSpec :=
  ⟨[.compress, .tracing],
   [⟨app_pfx ++ "/v1/graph", "GET", .graph_index⟩,
    ⟨app_pfx ++ "/graph", "GET", .graph_index⟩]⟩

/-
The public-service app (main.rs lines 140-156): Compress and the tracing
wrap_fn; one GET resource routed to graph::graph_data.
-/
def public_app (app_pfx : String) : AppSpec :=
  ⟨[.compress, .tracing],
   [⟨app_pfx ++ "/graph-data", "GET", .graph_data⟩]⟩

/-
An HttpServer as configured in main: its app, the keep-alive passed to
.keep_alive (none when the builder call is absent, as for the status server),
and the bound address.
-/
structure HttpServerSpec where
  app : AppSpec
  keep_alive : Option Nat
  bind_addr : String × Nat

/-
metrics_server (main.rs lines 91-108): status app, no .keep_alive call,
bound to (status_address, status_port).
-/
def metrics_server (s : AppSettings) : HttpServerSpec :=
  ⟨status_app, none, (s.status_address, s.status_port)⟩

/-
main_server (main.rs lines 112-136): main app with the configured path
prefix, .keep_alive(Duration::new(10, 0)), bound to (address, port).
-/
def main_server (s : AppSettings) : HttpServerSpec :=
  ⟨main_app s.pathPfx, some 10, (s.address, s.port)⟩

/-
public_server (main.rs lines 140-159): public app with the configured path
prefix, .keep_alive(Duration::new(10, 0)), bound to (address, public_port).
-/
def public_server (s : AppSettings) : HttpServerSpec :=
  ⟨public_app s.pathPfx, some 10, (s.address, s.public_port)⟩

def exampleSettings : AppSettings :=
  ⟨"0.0.0.0", 8080, 8081, "127.0.0.1", 9080, "/api/upgrades_info", [], []⟩

def exampleSettings2 : AppSettings :=
  ⟨"10.0.0.1", 9999, 7777, "10.0.0.2", 5555, "", ["channel"], ["graph_upstream_raw"]⟩

/-
Shared graph state.  graph::State lives in graph-builder/src/graph.rs, which
is not part of this tree; the constructor and accessor below are modelled
from the spec.  π and ρ stand for the plugin chain and the metrics registry
references; the RwLock/Arc wrappers around the other fields are dropped.
-/
structure State (π ρ : Type) where
  json_graph : String
  mandatory_client_parameters : List String
  live : Bool
  ready : Bool
  plugins : π
  registry : ρ
  secondary_metadata : String

/--
Modelled from the spec: graph::State::new (missing from this tree) stores its
arguments — in the argument order used at main.rs lines 68-76 — into the
corresponding fields of the shared state.
-/
def State.new {π ρ : Type} (json_graph : String) (mandatory_client_parameters : List String)
    (live ready : Bool) (plugins : π) (registry : ρ) (secondary_metadata : String) :
    State π ρ :=
  ⟨json_graph, mandatory_client_parameters, live, ready, plugins, registry, secondary_metadata⟩

/--
Modelled from the spec: is_live (missing from this tree) reads the live flag
of the shared state.
-/
def State.is_live {π ρ : Type} (s : State π ρ) : Bool :=
  s.live

/-
The shared state constructed in main (main.rs lines 63-77): empty graph
document, empty secondary metadata, live = false, ready = false, and the
configured mandatory client parameters.
-/
def main_shared_state (π ρ : Type) (mandatory : List String) (plugins : π) (registry : ρ) :
    State π ρ :=
  State.new "" mandatory false false plugins registry ""

/-
Tracing wrapper.  main.rs passes to .wrap_fn a closure that derives a span
from the request and then hands the request unchanged to the inner service.
The tracer helpers live in the commons crate (not in this tree) and are
modelled from the spec; they only build the span and never touch the request
or the response.
-/
structure HttpRequest where
  path : String
  headers : List (String × String)

structure SpanData where
  name : String
  parent : Option String
  tags : List (String × String)

/--
Modelled from the spec: commons::tracing::get_context (missing from this
tree) extracts an upstream trace context from the request headers when one is
present, and yields none (a new root context) otherwise.
-/
def get_context (req : HttpRequest) : Option String :=
  req.headers.lookup "traceparent"

/--
Modelled from the spec: the tracer (missing from this tree) starts a span
with the given name under the given parent context, with no tags yet.
-/
def start_with_context (name : String) (parent : Option String) : SpanData :=
  ⟨name, parent, []⟩

/--
Modelled from the spec: commons::tracing::set_span_tags (missing from this
tree) tags the span with the request path and header-derived attributes.
-/
def set_span_tags (path : String) (headers : List (String × String)) (s : SpanData) : SpanData :=
  { s with tags := ("path", path) :: headers }

/-
The wrap_fn closure of the primary and public listeners (main.rs lines
115-122 and 143-150): extract the parent context, start a span named
"request", tag it, make it active, and call the inner service on the request;
the value returned is whatever the inner service produced, paired here with
the span the closure built.
-/
def wrap_fn {α : Type} (srv : HttpRequest → α) (req : HttpRequest) : α × SpanData :=
  let parent_context := get_context req
  let span := start_with_context "request" parent_context
  let tagged := set_span_tags req.path req.headers span
  (srv req, tagged)

theorem appearsIn_iff (needle hay : String) :
    appearsIn needle hay ↔ needle.data <:+: hay.data := by
  constructor
  · rintro ⟨pre, post, rfl⟩
    exact ⟨pre.data, post.data, by simp [String.data_append]⟩
  · rintro ⟨s, t, h⟩
    refine ⟨⟨s⟩, ⟨t⟩, ?_⟩
    apply String.ext
    simp [String.data_append, ← h]

theorem appearsIn_concatParts (m : String) (l : List String) (h : m ∈ l) :
    appearsIn m (concatParts l) := by
  induction l with
  | nil => cases h
  | cons n rest ih =>
    rcases List.mem_cons.mp h with rfl | hmem
    · exact ⟨"\n    \"", "\"," ++ concatParts rest, rfl⟩
    · obtain ⟨pre, post, hp⟩ := ih hmem
      refine ⟨"\n    \"" ++ (n ++ ("\"," ++ pre)), post, ?_⟩
      simp [concatParts, hp, String.append_assoc]

theorem appearsIn_missingMetricMsg_name (n : String) (reg : List String) :
    appearsIn n (missingMetricMsg n reg) :=
  ⟨"Required metric '", "' has not been registered: " ++ debugFormatNames reg, rfl⟩

theorem appearsIn_missingMetricMsg_registered (m n : String) (reg : List String)
    (h : m ∈ reg) : appearsIn m (missingMetricMsg n reg) := by
  obtain ⟨pre, post, hp⟩ := appearsIn_concatParts m reg h
  refine ⟨"Required metric '" ++ (n ++ ("' has not been registered: " ++ ("\x7b" ++ pre))),
    post ++ "\n\x7d", ?_⟩
  simp [missingMetricMsg, debugFormatNames, hp, String.append_assoc]

theorem ensure_firstMissing (registered : List String) (pfx : String) (req : List String) :
    (firstMissing registered pfx req = none →
      ensure_registered_metrics registered pfx req = .ok ()) ∧
    (∀ r, firstMissing registered pfx req = some r →
      ensure_registered_metrics registered pfx req = .error (missingMetricMsg r registered)) := by
  induction req with
  | nil =>
    refine ⟨fun _ => rfl, fun r h => ?_⟩
    simp [firstMissing] at h
  | cons a rest ih =>
    constructor
    · intro h
      by_cases hm : (pfx ++ "_" ++ a) ∈ registered
      · simp only [firstMissing, if_pos hm] at h
        simpa [ensure_registered_metrics, hm] using ih.1 h
      · simp [firstMissing, hm] at h
    · intro r h
      by_cases hm : (pfx ++ "_" ++ a) ∈ registered
      · simp only [firstMissing, if_pos hm] at h
        simpa [ensure_registered_metrics, hm] using ih.2 r h
      · simp only [firstMissing, if_neg hm] at h
        have ha : a = r := Option.some.inj h
        subst ha
        simp [ensure_registered_metrics, hm]

theorem firstMissing_none_iff (registered : List String) (pfx : String) (req : List String) :
    firstMissing registered pfx req = none ↔ ∀ n ∈ req, (pfx ++ "_" ++ n) ∈ registered := by
  induction req with
  | nil => simp [firstMissing]
  | cons a rest ih =>
    by_cases hm : (pfx ++ "_" ++ a) ∈ registered
    · simp [firstMissing, hm, ih]
    · simp only [firstMissing, if_neg hm]
      constructor
      · intro h
        exact absurd h (Option.some_ne_none a)
      · intro hall
        exact absurd (hall a (List.mem_cons_self a rest)) hm

theorem firstMissing_some_spec (registered : List String) (pfx : String) (req : List String)
    (r : String) (h : firstMissing registered pfx req = some r) :
    r ∈ req ∧ (pfx ++ "_" ++ r) ∉ registered := by
  induction req with
  | nil => simp [firstMissing] at h
  | cons a rest ih =>
    by_cases hm : (pfx ++ "_" ++ a) ∈ registered
    · simp only [firstMissing, if_pos hm] at h
      obtain ⟨h1, h2⟩ := ih h
      exact ⟨List.mem_cons_of_mem _ h1, h2⟩
    · simp only [firstMissing, if_neg hm] at h
      have ha : a = r := Option.some.inj h
      subst ha
      exact ⟨List.mem_cons_self _ _, hm⟩

/--
Claim C1: ensure_registered_metrics succeeds if and only if every required
name, prefixed, is among the gathered metric family names; when it fails, the
error message names a missing required metric and contains every registered
name.
-/
theorem C1_ensure_registered_iff (registered : List String) (pfx : String) (req : List String) :
    (ensure_registered_metrics registered pfx req = .ok () ↔
      ∀ n ∈ req, (pfx ++ "_" ++ n) ∈ registered) ∧
    (∀ msg, ensure_registered_metrics registered pfx req = .error msg →
      (∃ n ∈ req, (pfx ++ "_" ++ n) ∉ registered ∧ appearsIn n msg) ∧
      (∀ m ∈ registered, appearsIn m msg)) := by
  constructor
  · constructor
    · intro hok
      rw [← firstMissing_none_iff]
      cases hfm : firstMissing registered pfx req with
      | none => rfl
      | some r =>
        have herr := (ensure_firstMissing registered pfx req).2 r hfm
        rw [hok] at herr
        exact Except.noConfusion herr
    · intro hall
      exact (ensure_firstMissing registered pfx req).1
        ((firstMissing_none_iff registered pfx req).mpr hall)
  · intro msg hmsg
    cases hfm : firstMissing registered pfx req with
    | none =>
      have hok := (ensure_firstMissing registered pfx req).1 hfm
      rw [hmsg] at hok
      exact Except.noConfusion hok
    | some r =>
      have herr := (ensure_firstMissing registered pfx req).2 r hfm
      rw [hmsg] at herr
      injection herr with hmeq
      obtain ⟨hr_mem, hr_not⟩ := firstMissing_some_spec registered pfx req r hfm
      subst hmeq
      exact ⟨⟨r, hr_mem, hr_not, appearsIn_missingMetricMsg_name r registered⟩,
        fun m hm => appearsIn_missingMetricMsg_registered m r registered hm⟩

theorem C1_witness :
    ensure_registered_metrics ["p_a"] "p" ["a"] = .ok () :=
  (C1_ensure_registered_iff ["p_a"] "p" ["a"]).1.mpr (by decide)

/--
Claim C9: with an empty required-name set, ensure_registered_metrics succeeds
for every registry content and every prefix.
-/
theorem C9_empty_required_ok (registered : List String) (pfx : String) :
    ensure_registered_metrics registered pfx [] = .ok () := rfl

theorem C9_witness : ensure_registered_metrics ["a", "b"] "p" [] = .ok () :=
  C9_empty_required_ok ["a", "b"] "p"

/--
Claim C10: when required names are absent, the check short-circuits at the
first absent name in iteration order: the error is exactly the message naming
that single name (and the message determines that name uniquely).
-/
theorem C10_short_circuit (registered : List String) (pfx : String) (req : List String)
    (r : String) (h : firstMissing registered pfx req = some r) :
    ensure_registered_metrics registered pfx req = .error (missingMetricMsg r registered) ∧
    ∀ m : String, missingMetricMsg r registered = missingMetricMsg m registered → r = m := by
  refine ⟨(ensure_firstMissing registered pfx req).2 r h, ?_⟩
  intro m heq
  have hd := congrArg String.data heq
  simp only [String.data_append] at hd
  have h1 := List.append_cancel_left hd
  have h2 := List.append_cancel_right h1
  exact String.ext h2

theorem C10_witness :
    firstMissing [] "p" ["aaa", "bbb"] = some "aaa" ∧
    ensure_registered_metrics [] "p" ["aaa", "bbb"] = .error (missingMetricMsg "aaa" []) ∧
    ¬ appearsIn "bbb" (missingMetricMsg "aaa" []) :=
  ⟨by decide,
   (C10_short_circuit [] "p" ["aaa", "bbb"] "aaa" (by decide)).1,
   by rw [appearsIn_iff]; decide⟩

theorem mainTraceB_props (asm nreg itr bpl gate rmet bst bma bpu : Bool) :
    (mainTraceB asm nreg itr bpl gate rmet bst bma bpu).count Event.gateCheck ≤ 1 ∧
    ((asm ∧ nreg ∧ itr ∧ bpl) →
      (mainTraceB asm nreg itr bpl gate rmet bst bma bpu).count Event.gateCheck = 1) ∧
    (gate = false →
      Event.bindStatus ∉ mainTraceB asm nreg itr bpl gate rmet bst bma bpu ∧
      Event.bindMain ∉ mainTraceB asm nreg itr bpl gate rmet bst bma bpu ∧
      Event.bindPublic ∉ mainTraceB asm nreg itr bpl gate rmet bst bma bpu) ∧
    (Event.gateCheck ∈ mainTraceB asm nreg itr bpl gate rmet bst bma bpu →
      (mainTraceB asm nreg itr bpl gate rmet bst bma bpu).indexOf Event.newRegistry <
        (mainTraceB asm nreg itr bpl gate rmet bst bma bpu).indexOf Event.gateCheck ∧
      (mainTraceB asm nreg itr bpl gate rmet bst bma bpu).indexOf Event.buildPlugins <
        (mainTraceB asm nreg itr bpl gate rmet bst bma bpu).indexOf Event.gateCheck) ∧
    (Event.bindStatus ∈ mainTraceB asm nreg itr bpl gate rmet bst bma bpu →
      (mainTraceB asm nreg itr bpl gate rmet bst bma bpu).indexOf Event.gateCheck <
        (mainTraceB asm nreg itr bpl gate rmet bst bma bpu).indexOf Event.bindStatus) ∧
    (Event.bindMain ∈ mainTraceB asm nreg itr bpl gate rmet bst bma bpu →
      (mainTraceB asm nreg itr bpl gate rmet bst bma bpu).indexOf Event.gateCheck <
        (mainTraceB asm nreg itr bpl gate rmet bst bma bpu).indexOf Event.bindMain) ∧
    (Event.bindPublic ∈ mainTraceB asm nreg itr bpl gate rmet bst bma bpu →
      (mainTraceB asm nreg itr bpl gate rmet bst bma bpu).indexOf Event.gateCheck <
        (mainTraceB asm nreg itr bpl gate rmet bst bma bpu).indexOf Event.bindPublic) := by
  cases asm <;> cases nreg <;> cases itr <;> cases bpl <;> cases gate <;> cases rmet <;>
    cases bst <;> cases bma <;> cases bpu <;> decide

/--
Claim C2 counterexample: in a fully successful startup,
graph::register_metrics — a metric-registering side effect on the registry —
runs strictly after the gate check, so the gate is not invoked after all
metric-registering components have performed their registration side effects.
-/
theorem C2_counterexample :
    Event.registerMetrics ∈ mainTrace envAll ∧
    (mainTrace envAll).indexOf Event.gateCheck <
      (mainTrace envAll).indexOf Event.registerMetrics := by
  decide

/--
Claim C2 (amended): the gate runs at most once (exactly once when the steps
before it succeed), strictly after registry creation and plugin building and
strictly before any listener is bound, and when the gate fails no listener is
ever bound; however graph::register_metrics performs its registration after
the gate.
-/
theorem C2_gate_ordering (env : MainEnv) :
    (mainTrace env).count Event.gateCheck ≤ 1 ∧
    ((env.assembleOk ∧ env.newRegistryOk ∧ env.initTracerOk ∧ env.buildPluginsOk) →
      (mainTrace env).count Event.gateCheck = 1) ∧
    (gateOk env.registered env.required = false →
      Event.bindStatus ∉ mainTrace env ∧ Event.bindMain ∉ mainTrace env ∧
      Event.bindPublic ∉ mainTrace env) ∧
    (Event.gateCheck ∈ mainTrace env →
      (mainTrace env).indexOf Event.newRegistry < (mainTrace env).indexOf Event.gateCheck ∧
      (mainTrace env).indexOf Event.buildPlugins < (mainTrace env).indexOf Event.gateCheck) ∧
    (Event.bindStatus ∈ mainTrace env →
      (mainTrace env).indexOf Event.gateCheck < (mainTrace env).indexOf Event.bindStatus) ∧
    (Event.bindMain ∈ mainTrace env →
      (mainTrace env).indexOf Event.gateCheck < (mainTrace env).indexOf Event.bindMain) ∧
    (Event.bindPublic ∈ mainTrace env →
      (mainTrace env).indexOf Event.gateCheck < (mainTrace env).indexOf Event.bindPublic) :=
  mainTraceB_props env.assembleOk env.newRegistryOk env.initTracerOk env.buildPluginsOk
    (gateOk env.registered env.required) env.registerMetricsOk
    env.bindStatusOk env.bindMainOk env.bindPublicOk

theorem C2_witness : (mainTrace envAll).count Event.gateCheck = 1 :=
  (C2_gate_ordering envAll).2.1 (by decide)

theorem foldl_earlier_mem (e : FutOutcome) (es : List FutOutcome) :
    es.foldl earlierOutcome e ∈ e :: es := by
  induction es generalizing e with
  | nil => exact List.mem_cons_self _ _
  | cons f fs ih =>
    simp only [List.foldl_cons]
    have hmem := ih (earlierOutcome e f)
    rcases List.mem_cons.mp hmem with h | h
    · rw [h]
      unfold earlierOutcome
      split
      · exact List.mem_cons_of_mem _ (List.mem_cons_self _ _)
      · exact List.mem_cons_self _ _
    · exact List.mem_cons_of_mem _ (List.mem_cons_of_mem _ h)

theorem foldl_earlier_le (e : FutOutcome) (es : List FutOutcome) :
    ∀ z ∈ e :: es, (es.foldl earlierOutcome e).time ≤ z.time := by
  induction es generalizing e with
  | nil =>
    intro z hz
    rcases List.mem_cons.mp hz with rfl | h
    · exact le_refl _
    · cases h
  | cons f fs ih =>
    intro z hz
    simp only [List.foldl_cons]
    have hle : (earlierOutcome e f).time ≤ e.time ∧ (earlierOutcome e f).time ≤ f.time := by
      unfold earlierOutcome
      split <;> constructor <;> omega
    rcases List.mem_cons.mp hz with hze | hz2
    · rw [hze]
      exact le_trans (ih (earlierOutcome e f) _ (List.mem_cons_self _ _)) hle.1
    · rcases List.mem_cons.mp hz2 with hzf | hz3
      · rw [hzf]
        exact le_trans (ih (earlierOutcome e f) _ (List.mem_cons_self _ _)) hle.2
      · exact ih (earlierOutcome e f) z (List.mem_cons_of_mem _ hz3)

theorem try_join3_first_failure (a b c x : FutOutcome)
    (hx : x ∈ [a, b, c]) (hfx : x.failed = true) :
    ∃ y ∈ [a, b, c], y.failed = true ∧ try_join3 a b c = ⟨y.time, y.result⟩ ∧
      ∀ z ∈ [a, b, c], z.failed = true → y.time ≤ z.time := by
  have hxf : x ∈ [a, b, c].filter FutOutcome.failed := List.mem_filter.mpr ⟨hx, hfx⟩
  cases hfl : [a, b, c].filter FutOutcome.failed with
  | nil =>
    rw [hfl] at hxf
    cases hxf
  | cons e es =>
    have hy_filter : es.foldl earlierOutcome e ∈ [a, b, c].filter FutOutcome.failed := by
      rw [hfl]
      exact foldl_earlier_mem e es
    obtain ⟨hy_mem, hy_failed⟩ := List.mem_filter.mp hy_filter
    refine ⟨es.foldl earlierOutcome e, hy_mem, hy_failed, ?_, ?_⟩
    · unfold try_join3
      rw [hfl]
    · intro z hz hfz
      have hz_f : z ∈ e :: es := by
        rw [← hfl]
        exact List.mem_filter.mpr ⟨hz, hfz⟩
      exact foldl_earlier_le e es z hz_f

theorem try_join3_ok_iff (a b c : FutOutcome) :
    (try_join3 a b c).failed = false ↔
      (a.failed = false ∧ b.failed = false ∧ c.failed = false) := by
  constructor
  · intro h
    refine ⟨?_, ?_, ?_⟩
    · cases hf : a.failed with
      | false => rfl
      | true =>
        obtain ⟨y, _, hy_failed, hjoin, _⟩ :=
          try_join3_first_failure a b c a (by simp) hf
        rw [hjoin] at h
        have h2 : y.failed = false := h
        rw [hy_failed] at h2
        exact Bool.noConfusion h2
    · cases hf : b.failed with
      | false => rfl
      | true =>
        obtain ⟨y, _, hy_failed, hjoin, _⟩ :=
          try_join3_first_failure a b c b (by simp) hf
        rw [hjoin] at h
        have h2 : y.failed = false := h
        rw [hy_failed] at h2
        exact Bool.noConfusion h2
    · cases hf : c.failed with
      | false => rfl
      | true =>
        obtain ⟨y, _, hy_failed, hjoin, _⟩ :=
          try_join3_first_failure a b c c (by simp) hf
        rw [hjoin] at h
        have h2 : y.failed = false := h
        rw [hy_failed] at h2
        exact Bool.noConfusion h2
  · rintro ⟨ha, hb, hc⟩
    have hfl : [a, b, c].filter FutOutcome.failed = [] := by
      simp [List.filter_cons, List.filter_nil, ha, hb, hc]
    unfold try_join3
    rw [hfl]
    rfl

/--
Claim C3 counterexample: all three run loops complete successfully, two of
them at time 0 and one at time 9; the join resolves only at time 9, so
completion of one listener does not by itself complete the whole join.
-/
theorem C3_counterexample :
    (try_join3 ⟨0, .ok ()⟩ ⟨0, .ok ()⟩ ⟨9, .ok ()⟩).time = 9 ∧
    (try_join3 ⟨0, .ok ()⟩ ⟨0, .ok ()⟩ ⟨9, .ok ()⟩).time ≠ 0 := by
  constructor
  · decide
  · decide

/--
Claim C3 (amended): the joined future of the three run loops succeeds exactly
when all three run loops succeed, and whenever some run loop exits with an
error the join resolves to the result of an erroring run loop with the
earliest completion time (first-failure-wins), which main then propagates as a
non-zero process outcome.
-/
theorem C3_join_first_failure (a b c : FutOutcome) :
    ((try_join3 a b c).failed = false ↔
      (a.failed = false ∧ b.failed = false ∧ c.failed = false)) ∧
    (∀ x ∈ [a, b, c], x.failed = true →
      ∃ y ∈ [a, b, c], y.failed = true ∧ try_join3 a b c = ⟨y.time, y.result⟩ ∧
        ∀ z ∈ [a, b, c], z.failed = true → y.time ≤ z.time) :=
  ⟨try_join3_ok_iff a b c,
   fun x hx hfx => try_join3_first_failure a b c x hx hfx⟩

theorem C3_witness :
    (try_join3 ⟨1, .ok ()⟩ ⟨2, .error "bind lost"⟩ ⟨3, .error "late"⟩).failed = true := by
  have h := (C3_join_first_failure ⟨1, .ok ()⟩ ⟨2, .error "bind lost"⟩ ⟨3, .error "late"⟩).1
  cases hf : (try_join3 ⟨1, .ok ()⟩ ⟨2, .error "bind lost"⟩ ⟨3, .error "late"⟩).failed with
  | true => rfl
  | false => exact Bool.noConfusion ((h.mp hf).2.1)

/--
Claim C4 counterexample: the status listener is built without any keep-alive
call, and the primary listener's keep-alive is the same for two entirely
different configurations — so it is not true that each of the three listeners
gets a configuration-driven keep-alive timeout.
-/
theorem C4_counterexample :
    (metrics_server exampleSettings).keep_alive = none ∧
    (main_server exampleSettings).keep_alive = (main_server exampleSettings2).keep_alive := by
  exact ⟨rfl, rfl⟩

/--
Claim C4 (amended): the primary and public listeners are constructed with a
fixed 10-second keep-alive timeout, hard-coded independently of the
configuration, and the status listener sets no keep-alive at all.
-/
theorem C4_keep_alive (s : AppSettings) :
    (main_server s).keep_alive = some 10 ∧
    (public_server s).keep_alive = some 10 ∧
    (metrics_server s).keep_alive = none :=
  ⟨rfl, rfl, rfl⟩

theorem C4_witness :
    (main_server exampleSettings).keep_alive = some 10 ∧
    (public_server exampleSettings).keep_alive = some 10 ∧
    (metrics_server exampleSettings).keep_alive = none :=
  C4_keep_alive exampleSettings

/--
Claim C6: the tracing wrapper is applied to the primary and public listeners'
apps and is not applied to the status listener's app.
-/
theorem C6_tracing_placement (s : AppSettings) :
    Middleware.tracing ∈ (main_server s).app.middlewares ∧
    Middleware.tracing ∈ (public_server s).app.middlewares ∧
    Middleware.tracing ∉ (metrics_server s).app.middlewares := by
  refine ⟨?_, ?_, ?_⟩ <;> simp [main_server, public_server, metrics_server,
    main_app, public_app, status_app]

theorem C6_witness :
    Middleware.tracing ∈ (main_server exampleSettings).app.middlewares ∧
    Middleware.tracing ∈ (public_server exampleSettings).app.middlewares ∧
    Middleware.tracing ∉ (metrics_server exampleSettings).app.middlewares :=
  C6_tracing_placement exampleSettings

/--
Claim C8: the primary listener registers exactly two GET routes,
"{prefix}/v1/graph" and "{prefix}/graph" for the configured path prefix, and
both dispatch to graph::index.
-/
theorem C8_graph_routes (s : AppSettings) :
    (main_server s).app.routes =
      [⟨s.pathPfx ++ "/v1/graph", "GET", .graph_index⟩,
       ⟨s.pathPfx ++ "/graph", "GET", .graph_index⟩] ∧
    (main_server s).app.routes.length = 2 ∧
    ∀ r ∈ (main_server s).app.routes, r.method = "GET" ∧ r.handler = .graph_index := by
  refine ⟨rfl, rfl, ?_⟩
  intro r hr
  rcases List.mem_cons.mp hr with hp | hr2
  · rw [hp]
    exact ⟨rfl, rfl⟩
  · rcases List.mem_cons.mp hr2 with hp | hr3
    · rw [hp]
      exact ⟨rfl, rfl⟩
    · cases hr3

theorem C8_witness :
    (main_server exampleSettings).app.routes =
      [⟨"/api/upgrades_info" ++ "/v1/graph", "GET", .graph_index⟩,
       ⟨"/api/upgrades_info" ++ "/graph", "GET", .graph_index⟩] :=
  (C8_graph_routes exampleSettings).1

/--
Claim C5: the SharedGraphState built in main starts with the empty graph
document, the empty secondary metadata document, live = false and
ready = false, so is_live() observed before any set_live(true) is false.
-/
theorem C5_initial_state (π ρ : Type) (mandatory : List String) (plugins : π) (registry : ρ) :
    (main_shared_state π ρ mandatory plugins registry).json_graph = "" ∧
    (main_shared_state π ρ mandatory plugins registry).secondary_metadata = "" ∧
    (main_shared_state π ρ mandatory plugins registry).live = false ∧
    (main_shared_state π ρ mandatory plugins registry).ready = false ∧
    (main_shared_state π ρ mandatory plugins registry).is_live = false :=
  ⟨rfl, rfl, rfl, rfl, rfl⟩

theorem C5_witness :
    (main_shared_state Unit Unit ["channel"] () ()).is_live = false :=
  (C5_initial_state Unit Unit ["channel"] () ()).2.2.2.2

/--
Claim C7: the tracing wrapper forwards every request unchanged to the inner
service and returns the inner service's response unchanged: its response
component is exactly the inner service applied to the original request, for
every inner service and every request.
-/
theorem C7_wrap_fn_transparent {α : Type} (srv : HttpRequest → α) (req : HttpRequest) :
    (wrap_fn srv req).1 = srv req :=
  rfl

theorem C7_witness :
    (wrap_fn (fun r => r.path.length) ⟨"/graph", [("accept", "json")]⟩).1 =
      (fun (r : HttpRequest) => r.path.length) ⟨"/graph", [("accept", "json")]⟩ :=
  C7_wrap_fn_transparent (fun r => r.path.length) ⟨"/graph", [("accept", "json")]⟩
